import Mathlib

/-!
Verification development for the p5 particle-background sketch
(`src/components/BackgroundP5/index.tsx`).  The force model, the particle
entity, the grid builder and the frame loop are embedded as pure Lean
functions over real-valued 2D vectors; JavaScript numbers are modelled by
real numbers, `Math.sqrt` by `Real.sqrt` and `Math.pow` by real
exponentiation.
-/

/-- A 2D vector, standing in for a `p5.Vector` (only the `x`/`y` data). -/
structure Vec where
  x : ℝ
  y : ℝ

/-- Componentwise vector addition (`p5.Vector.add`, in-place in the source). -/
def Vec.add (a b : Vec) : Vec := ⟨a.x + b.x, a.y + b.y⟩

/-- Scalar multiplication (`p5.Vector.mult`, in-place in the source). -/
def Vec.mult (a : Vec) (k : ℝ) : Vec := ⟨a.x * k, a.y * k⟩

/-- Euclidean distance (`p5.Vector.dist`), the same expression the sketch
writes out by hand in `calculateGravity` and `calculateElasticity`. -/
noncomputable def Vec.dist (a b : Vec) : ℝ :=
  Real.sqrt ((b.x - a.x) * (b.x - a.x) + (b.y - a.y) * (b.y - a.y))

/-- Euclidean magnitude of a vector, used to compare velocities. -/
noncomputable def velNorm (v : Vec) : ℝ := Real.sqrt (v.x * v.x + v.y * v.y)

/-- Modelled from the spec: `clamp` is imported from `src/lib/utils`, a file
not present under `src/`.  The spec describes it as clamping a value to a
closed interval (each axis component "independently clamped to
`[-maxGravForce, +maxGravForce]`", "damping factor = `clamp(0.05*distance, 0, 1)`"). -/
def clamp (x lo hi : ℝ) : ℝ := max lo (min x hi)

/-- The `settings` constant object of the sketch. -/
structure Settings where
  fps : ℕ
  dotColor : String
  dotSize : ℝ
  maxGravForce : ℝ
  maxEllasticForce : ℝ
  columns : ℕ
  columnGap : ℝ
  rows : ℕ
  rowGap : ℝ

/-- `settings` from `src/components/BackgroundP5/index.tsx`. -/
def settings : Settings :=
  { fps := 60
    dotColor := "#bab6ab"
    dotSize := 4
    maxGravForce := 12
    maxEllasticForce := 20
    columns := 80
    columnGap := 10
    rows := 40
    rowGap := 10 }

/-- `calculateGravity(point1, point2)` from the sketch, verbatim:
distance from the coordinate differences, magnitude `G*m1*m2 / distance^1.05`,
unit direction, then each component clamped to
`[-settings.maxGravForce, settings.maxGravForce]`. -/
noncomputable def calculateGravity (point1 point2 : Vec) : Vec :=
  let G : ℝ := 1000
  let m1 : ℝ := 1
  let m2 : ℝ := 1
  let dx := point2.x - point1.x
  let dy := point2.y - point1.y
  let distance := Real.sqrt (dx * dx + dy * dy)
  let forceMagnitude := G * m1 * m2 / distance ^ (1.05 : ℝ)
  let ux := dx / distance
  let uy := dy / distance
  let fx := clamp (forceMagnitude * ux) (-settings.maxGravForce) settings.maxGravForce
  let fy := clamp (forceMagnitude * uy) (-settings.maxGravForce) settings.maxGravForce
  ⟨fx, fy⟩

/-- The linear branch of the elasticity magnitude law (`Math.abs(distance)`). -/
def elasticLinear (d : ℝ) : ℝ := |d|

/-- The exponential branch of the elasticity magnitude law
(`Math.pow(1.7, (0.5 * distance) - 2) + 2`). -/
noncomputable def elasticExp (d : ℝ) : ℝ := (1.7 : ℝ) ^ (0.5 * d - 2) + 2

/-- `calculateElasticity(point1, point2)` from the sketch: piecewise
magnitude (linear up to 2.62, exponential beyond), unit direction with an
explicit zero-distance guard, components clamped to
`[-settings.maxEllasticForce, settings.maxEllasticForce]`. -/
noncomputable def calculateElasticity (point1 point2 : Vec) : Vec :=
  let dx := point2.x - point1.x
  let dy := point2.y - point1.y
  let distance := Real.sqrt (dx * dx + dy * dy)
  let forceMagnitude := if distance ≤ 2.62 then elasticLinear distance else elasticExp distance
  let ux := if distance ≠ 0 then dx / distance else 0
  let uy := if distance ≠ 0 then dy / distance else 0
  let fx := clamp (forceMagnitude * ux) (-settings.maxEllasticForce) settings.maxEllasticForce
  let fy := clamp (forceMagnitude * uy) (-settings.maxEllasticForce) settings.maxEllasticForce
  ⟨fx, fy⟩

/-- A particle (`class Entity` in the sketch). -/
structure Entity where
  position : Vec
  velocity : Vec
  anchor : Vec
  debug : Bool

/-- The `Entity` constructor: position and anchor are copies of the given
point, velocity starts at `(0, 0)`, and the debug flag is `debug || false`. -/
def Entity.create (position : Vec) (debug : Bool) : Entity :=
  { position := position
    velocity := ⟨0, 0⟩
    anchor := position
    debug := debug || false }

/-- `Entity.applyForce`: adds the force to the velocity. -/
def Entity.applyForce (e : Entity) (force : Vec) : Entity :=
  { e with velocity := e.velocity.add force }

/-- The damping factor computed by `applyAnchorDamping` as a function of the
distance to the anchor: `Math.pow(0.95, Math.max(distance, 8))`
(`dampingStrength = 0.95`, `minDistance = 8`). -/
noncomputable def anchorDampingFactor (d : ℝ) : ℝ := (0.95 : ℝ) ^ (max d 8)

/-- `Entity.applyAnchorDamping`: multiplies the velocity by
`anchorDampingFactor` of the distance from the position to the anchor. -/
noncomputable def Entity.applyAnchorDamping (e : Entity) : Entity :=
  { e with velocity := e.velocity.mult (anchorDampingFactor (e.position.dist e.anchor)) }

/-- `Entity.applyMouseDamping(mousePoint)`: returns unchanged when the
distance to the pointer exceeds 30, otherwise multiplies the velocity by
`clamp(0.05 * distance + 0.0, 0, 1)`. -/
noncomputable def Entity.applyMouseDamping (e : Entity) (mousePoint : Vec) : Entity :=
  let distance := e.position.dist mousePoint
  if 30 < distance then e
  else { e with velocity := e.velocity.mult (clamp (0.05 * distance + 0.0) 0 1) }

/-- `Entity.applyVelocity`: adds the velocity to the position. -/
def Entity.applyVelocity (e : Entity) : Entity :=
  { e with position := e.position.add e.velocity }

/-- `createEntities()`: the grid builder.  The outer loop runs over columns,
the inner loop over rows; each cell position is shifted so the grid box
(`gridWidth` by `gridHeight`) is centered on the origin; the debug flag marks
cell `(0, 0)`. -/
noncomputable def createEntities : List Entity :=
  let gridWidth : ℝ :=
    ((settings.columns : ℝ) * settings.dotSize) +
      (((settings.columns : ℝ) - 1) * settings.columnGap)
  let gridHeight : ℝ :=
    ((settings.rows : ℝ) * settings.dotSize) +
      (((settings.rows : ℝ) - 1) * settings.rowGap)
  (List.range settings.columns).flatMap (fun (i : ℕ) =>
    (List.range settings.rows).map (fun (j : ℕ) =>
      let x : ℝ := (i : ℝ) * (settings.dotSize + settings.columnGap) - gridWidth / 2
      let y : ℝ := (j : ℝ) * (settings.dotSize + settings.rowGap) - gridHeight / 2
      Entity.create ⟨x, y⟩ (i == 0 && j == 0)))

/-- The pointer test of `p.draw`: the centered mouse position is produced
only when `p.mouseX !== 0 && p.mouseY !== 0`; otherwise the pointer is
absent (`null`). -/
noncomputable def mousePosition (mouseX mouseY windowWidth windowHeight : ℝ) : Option Vec :=
  if mouseX ≠ 0 ∧ mouseY ≠ 0 then
    some ⟨mouseX - windowWidth / 2, mouseY - windowHeight / 2⟩
  else none

/-- One iteration of the `p.draw` loop body for a single entity: gravity
toward the pointer when present, elasticity toward the anchor, anchor
damping, mouse damping when the pointer is present, then integration. -/
noncomputable def stepEntity (mp : Option Vec) (e : Entity) : Entity :=
  let e1 := match mp with
    | some m => e.applyForce (calculateGravity e.position m)
    | none => e
  let e2 := e1.applyForce (calculateElasticity e1.position e1.anchor)
  let e3 := e2.applyAnchorDamping
  let e4 := match mp with
    | some m => e3.applyMouseDamping m
    | none => e3
  e4.applyVelocity

/-- The raw per-frame inputs `p.draw` reads from the host. -/
structure FrameInput where
  mouseX : ℝ
  mouseY : ℝ
  windowWidth : ℝ
  windowHeight : ℝ

/-- One full `p.draw` pass over the entity list. -/
noncomputable def drawFrame (inp : FrameInput) (es : List Entity) : List Entity :=
  es.map (stepEntity (mousePosition inp.mouseX inp.mouseY inp.windowWidth inp.windowHeight))

/-- The driver state: the p5 loop flag (flipped by `noLoop`/`loop`) together
with the entity array. -/
structure SimState where
  looping : Bool
  entities : List Entity

/-- `pauseFn = () => p.noLoop()`: clears the loop flag.  The host scheduler
(p5) invokes `draw` only while the loop flag is set; spec section 5 describes
pause as preventing the next frame from being scheduled. -/
def pause (s : SimState) : SimState := { s with looping := false }

/-- `resumeFn = () => p.loop()`: sets the loop flag. -/
def resume (s : SimState) : SimState := { s with looping := true }

/-- One scheduler slot of the host: while the loop flag is set a `draw`
frame runs, otherwise nothing happens. -/
noncomputable def tick (inp : FrameInput) (s : SimState) : SimState :=
  if s.looping then { s with entities := drawFrame inp s.entities } else s

/-- A sequence of scheduler slots. -/
noncomputable def ticks (l : List FrameInput) (s : SimState) : SimState :=
  l.foldl (fun s inp => tick inp s) s

/-- The magnitude law the spec states for gravity: `G / r^1.05` with
`G = 1000`, before any clamping. -/
noncomputable def specGravMagnitude (r : ℝ) : ℝ := 1000 / r ^ (1.05 : ℝ)

/-- The full content of claim C1 at a pair of points: the returned vector is
the per-axis clamp (to `[-12, 12]`) of the spec magnitude times the unit
vector from `a` to `b`; the pre-clamp magnitude is positive; both returned
components are bounded by 12 in absolute value; and along any fixed unit
direction each clamped component is decreasing in absolute value as the
distance grows. -/
noncomputable def gravityClaim (a b : Vec) : Prop :=
  calculateGravity a b =
    ⟨clamp (specGravMagnitude (a.dist b) * ((b.x - a.x) / a.dist b)) (-12) 12,
     clamp (specGravMagnitude (a.dist b) * ((b.y - a.y) / a.dist b)) (-12) 12⟩ ∧
  0 < specGravMagnitude (a.dist b) ∧
  |(calculateGravity a b).x| ≤ 12 ∧ |(calculateGravity a b).y| ≤ 12 ∧
  (∀ ux uy r₁ r₂ : ℝ, ux ^ 2 + uy ^ 2 = 1 → 0 < r₁ → r₁ ≤ r₂ →
    |clamp (specGravMagnitude r₂ * ux) (-12) 12| ≤
      |clamp (specGravMagnitude r₁ * ux) (-12) 12| ∧
    |clamp (specGravMagnitude r₂ * uy) (-12) 12| ≤
      |clamp (specGravMagnitude r₁ * uy) (-12) 12|)


/-! ## Helper lemmas -/

lemma clamp_mono {x y lo hi : ℝ} (h : x ≤ y) : clamp x lo hi ≤ clamp y lo hi :=
  max_le_max le_rfl (min_le_min h le_rfl)

lemma clamp_mem {x lo hi : ℝ} (h : lo ≤ hi) :
    lo ≤ clamp x lo hi ∧ clamp x lo hi ≤ hi :=
  ⟨le_max_left _ _, max_le h (min_le_right _ _)⟩

lemma abs_clamp {x c : ℝ} (hc : 0 ≤ c) : |clamp x (-c) c| = clamp |x| (-c) c := by
  unfold clamp
  rcases le_total x (-c) with h1 | h1
  · have hxc : x ≤ c := by linarith
    have habs : |x| = -x := abs_of_nonpos (by linarith)
    have hcx : c ≤ -x := by linarith
    rw [min_eq_left hxc, max_eq_left h1, habs, min_eq_right hcx,
      max_eq_right (by linarith : -c ≤ c), abs_of_nonpos (by linarith : -c ≤ 0), neg_neg]
  · rcases le_total x c with h2 | h2
    · have habs : |x| ≤ c := abs_le.mpr ⟨h1, h2⟩
      have h0 : -c ≤ |x| := le_trans (by linarith) (abs_nonneg x)
      rw [min_eq_left h2, max_eq_right h1, min_eq_left habs, max_eq_right h0]
    · have hx0 : 0 ≤ x := hc.trans h2
      have h3 : -c ≤ c := by linarith
      rw [min_eq_right h2, max_eq_right h3, abs_of_nonneg hc, abs_of_nonneg hx0,
        min_eq_right h2, max_eq_right h3]

lemma Vec.dist_nonneg (a b : Vec) : 0 ≤ a.dist b := Real.sqrt_nonneg _

lemma Vec.dist_axis (x : ℝ) (hx : 0 ≤ x) : Vec.dist ⟨0, 0⟩ ⟨x, 0⟩ = x := by
  unfold Vec.dist
  rw [show (x - 0) * (x - 0) + ((0 : ℝ) - 0) * ((0 : ℝ) - 0) = x * x by ring]
  exact Real.sqrt_mul_self hx

lemma Vec.dist_pos_of_ne {a b : Vec} (h : a ≠ b) : 0 < a.dist b := by
  obtain ⟨p, q⟩ := a
  obtain ⟨r, s⟩ := b
  unfold Vec.dist
  apply Real.sqrt_pos.mpr
  have hne : r - p ≠ 0 ∨ s - q ≠ 0 := by
    by_contra hc
    push_neg at hc
    refine h ?_
    have h1 : p = r := by linarith [sub_eq_zero.mp hc.1]
    have h2 : q = s := by linarith [sub_eq_zero.mp hc.2]
    simp [Vec.mk.injEq, h1, h2]
  rcases hne with h1 | h1
  · nlinarith [mul_self_pos.mpr h1, mul_self_nonneg (s - q)]
  · nlinarith [mul_self_pos.mpr h1, mul_self_nonneg (r - p)]

lemma applyMouseDamping_anchor (e : Entity) (m : Vec) :
    (e.applyMouseDamping m).anchor = e.anchor := by
  unfold Entity.applyMouseDamping
  dsimp only
  split <;> rfl

lemma stepEntity_anchor (mp : Option Vec) (e : Entity) :
    (stepEntity mp e).anchor = e.anchor := by
  cases mp with
  | none =>
      simp [stepEntity, Entity.applyForce, Entity.applyAnchorDamping, Entity.applyVelocity]
  | some m =>
      simp [stepEntity, Entity.applyForce, Entity.applyAnchorDamping, Entity.applyVelocity,
        applyMouseDamping_anchor]

lemma drawFrame_anchors (inp : FrameInput) (es : List Entity) :
    (drawFrame inp es).map Entity.anchor = es.map Entity.anchor := by
  unfold drawFrame
  induction es with
  | nil => rfl
  | cons a t ih => simp_all [stepEntity_anchor]

lemma tick_paused (inp : FrameInput) (s : SimState) (h : s.looping = false) :
    tick inp s = s := by
  simp [tick, h]

lemma ticks_paused (l : List FrameInput) (s : SimState) (h : s.looping = false) :
    ticks l s = s := by
  induction l with
  | nil => rfl
  | cons a t ih =>
      unfold ticks at ih ⊢
      rw [List.foldl_cons, tick_paused a s h]
      exact ih

/-! ## Claim theorems (easy group) -/

/-- C7: for every point `a`, `calculateElasticity a a` is the zero vector:
the distance is 0, the linear branch gives magnitude 0, the guarded
direction is `(0, 0)`, and the clamped components are 0. -/
theorem calculateElasticity_self (a : Vec) : calculateElasticity a a = ⟨0, 0⟩ := by
  unfold calculateElasticity
  norm_num [elasticLinear, clamp, settings]

/-- C8: no particle operation and no frame step mutates the anchor:
`applyForce`, `applyAnchorDamping`, `applyMouseDamping`, `applyVelocity`,
the per-entity frame body and the full frame pass all leave every anchor
unchanged (rendering only draws and holds no entity state). -/
theorem anchor_never_mutated (e : Entity) (f m : Vec) (mp : Option Vec)
    (inp : FrameInput) (es : List Entity) :
    (e.applyForce f).anchor = e.anchor ∧
    e.applyAnchorDamping.anchor = e.anchor ∧
    (e.applyMouseDamping m).anchor = e.anchor ∧
    e.applyVelocity.anchor = e.anchor ∧
    (stepEntity mp e).anchor = e.anchor ∧
    (drawFrame inp es).map Entity.anchor = es.map Entity.anchor :=
  ⟨rfl, rfl, applyMouseDamping_anchor e m, rfl, stepEntity_anchor mp e,
    drawFrame_anchors inp es⟩

/-- C9: after `pause` the scheduler never runs a frame, whatever frame
inputs arrive, until `resume`: every sequence of ticks leaves the paused
state (hence every particle position) unchanged; `pause` on a paused state
and `resume` on a running state are no-ops. -/
theorem pause_resume_spec (s : SimState) (l : List FrameInput) (es : List Entity) :
    ticks l (pause s) = pause s ∧
    (pause s).entities = s.entities ∧
    pause ⟨false, es⟩ = ⟨false, es⟩ ∧
    resume ⟨true, es⟩ = ⟨true, es⟩ :=
  ⟨ticks_paused l (pause s) rfl, rfl, rfl, rfl⟩

/-- C10: a newly constructed particle starts at rest at its rest position:
position and anchor both equal the creation point and the velocity is
`(0, 0)`. -/
theorem entity_create_spec (p : Vec) (dbg : Bool) :
    (Entity.create p dbg).position = p ∧ (Entity.create p dbg).anchor = p ∧
    (Entity.create p dbg).velocity = ⟨0, 0⟩ ∧
    (Entity.create p dbg).position = (Entity.create p dbg).anchor :=
  ⟨rfl, rfl, rfl, rfl⟩

/-- C5 (counterexample): the raw pointer position `(5, 0)` has a nonzero
coordinate, yet the frame treats the pointer as absent, because the source
requires `mouseX !== 0 && mouseY !== 0` rather than excluding only `(0, 0)`. -/
theorem pointer_absent_counterexample :
    mousePosition 5 0 1000 800 = none ∧ ¬((5 : ℝ) = 0 ∧ (0 : ℝ) = 0) := by
  constructor
  · norm_num [mousePosition]
  · norm_num

/-- C5 (amended): the pointer is treated as absent exactly when at least one
raw coordinate is zero; when it is absent the frame applies only elasticity,
anchor damping and integration (no gravity, no mouse damping). -/
theorem pointer_presence_spec (mx my w h : ℝ) (e : Entity) :
    mousePosition mx my w h =
      (if mx = 0 ∨ my = 0 then none else some ⟨mx - w / 2, my - h / 2⟩) ∧
    stepEntity none e =
      ((e.applyForce (calculateElasticity e.position e.anchor)).applyAnchorDamping).applyVelocity := by
  constructor
  · unfold mousePosition
    by_cases hx : mx = 0 <;> by_cases hy : my = 0 <;> simp [hx, hy]
  · rfl

/-! ## Anchor damping (C2) -/

/-- C2 (code behavior at the failing input): the anchor damping factor is
`0.95^8` for every distance up to the floor 8, but beyond the floor it
strictly DECREASES with distance (`factor(16) < factor(8)`), so damping
gets stronger far from the anchor — the opposite of the claimed
monotone increase toward 1 (and of the comments in the source). -/
theorem anchorDampingFactor_divergence :
    anchorDampingFactor 16 < anchorDampingFactor 8 ∧
    anchorDampingFactor 0 = (0.95 : ℝ) ^ (8 : ℝ) ∧
    anchorDampingFactor 5 = (0.95 : ℝ) ^ (8 : ℝ) ∧
    anchorDampingFactor 8 = (0.95 : ℝ) ^ (8 : ℝ) := by
  refine ⟨?_, ?_, ?_, ?_⟩
  · unfold anchorDampingFactor
    rw [max_eq_left (by norm_num : (8 : ℝ) ≤ 16), max_self]
    exact Real.rpow_lt_rpow_of_exponent_gt (by norm_num) (by norm_num) (by norm_num)
  · unfold anchorDampingFactor
    rw [max_eq_right (by norm_num : (0 : ℝ) ≤ 8)]
  · unfold anchorDampingFactor
    rw [max_eq_right (by norm_num : (5 : ℝ) ≤ 8)]
  · unfold anchorDampingFactor
    rw [max_self]

/-! ## Mouse damping (C3) -/

lemma velNorm_mult (v : Vec) (k : ℝ) (hk : 0 ≤ k) : velNorm (v.mult k) = k * velNorm v := by
  unfold velNorm Vec.mult
  dsimp only
  rw [show v.x * k * (v.x * k) + v.y * k * (v.y * k) = k ^ 2 * (v.x * v.x + v.y * v.y) by ring,
    Real.sqrt_mul (sq_nonneg k), Real.sqrt_sq hk]

lemma velNorm_pos {v : Vec} (hv : v ≠ ⟨0, 0⟩) : 0 < velNorm v := by
  obtain ⟨vx, vy⟩ := v
  unfold velNorm
  apply Real.sqrt_pos.mpr
  have hne : vx ≠ 0 ∨ vy ≠ 0 := by
    by_contra hc
    push_neg at hc
    exact hv (by simp [Vec.mk.injEq, hc.1, hc.2])
  rcases hne with h1 | h1
  · nlinarith [mul_self_pos.mpr h1, mul_self_nonneg vy]
  · nlinarith [mul_self_pos.mpr h1, mul_self_nonneg vx]

/-- C3 (counterexample): at distance exactly 20 from the pointer, a particle
with nonzero velocity keeps its velocity unchanged — the damping factor is
`clamp(0.05 * 20, 0, 1) = 1` — so "strictly decreases for distance ≤ 20"
fails at the boundary. -/
theorem mouseDamping_at20_counterexample :
    Vec.dist ⟨0, 0⟩ ⟨20, 0⟩ ≤ 20 ∧
    (Entity.mk ⟨0, 0⟩ ⟨1, 0⟩ ⟨0, 0⟩ false).velocity ≠ ⟨0, 0⟩ ∧
    ((Entity.mk ⟨0, 0⟩ ⟨1, 0⟩ ⟨0, 0⟩ false).applyMouseDamping ⟨20, 0⟩).velocity =
      (Entity.mk ⟨0, 0⟩ ⟨1, 0⟩ ⟨0, 0⟩ false).velocity ∧
    ¬(velNorm ((Entity.mk ⟨0, 0⟩ ⟨1, 0⟩ ⟨0, 0⟩ false).applyMouseDamping ⟨20, 0⟩).velocity <
        velNorm (Entity.mk ⟨0, 0⟩ ⟨1, 0⟩ ⟨0, 0⟩ false).velocity) := by
  have h20 : Vec.dist ⟨0, 0⟩ ⟨20, 0⟩ = 20 := Vec.dist_axis 20 (by norm_num)
  have hsame : ((Entity.mk ⟨0, 0⟩ ⟨1, 0⟩ ⟨0, 0⟩ false).applyMouseDamping ⟨20, 0⟩).velocity =
      (Entity.mk ⟨0, 0⟩ ⟨1, 0⟩ ⟨0, 0⟩ false).velocity := by
    unfold Entity.applyMouseDamping
    dsimp only
    rw [h20, if_neg (by norm_num : ¬(30 : ℝ) < 20)]
    show Vec.mult ⟨1, 0⟩ (clamp (0.05 * 20 + 0.0) 0 1) = ⟨1, 0⟩
    rw [show (0.05 * 20 + 0.0 : ℝ) = 1 by norm_num]
    unfold clamp Vec.mult
    norm_num
  refine ⟨by rw [h20], ?_, hsame, ?_⟩
  · intro hcon
    have := congrArg Vec.x hcon
    norm_num at this
  · rw [hsame]
    exact lt_irrefl _

/-- C3 (amended): mouse damping is skipped entirely beyond distance 30; at
distance at most 30 the velocity is multiplied by
`clamp(0.05 * distance, 0, 1)`; and for nonzero velocity at distance
STRICTLY BELOW 20 the speed strictly decreases (at distance exactly 20 the
factor is already 1). -/
theorem applyMouseDamping_spec (e : Entity) (m : Vec) :
    (30 < e.position.dist m → e.applyMouseDamping m = e) ∧
    (e.position.dist m ≤ 30 →
      (e.applyMouseDamping m).velocity =
        e.velocity.mult (clamp (0.05 * e.position.dist m + 0.0) 0 1)) ∧
    (e.position.dist m < 20 → e.velocity ≠ ⟨0, 0⟩ →
      velNorm (e.applyMouseDamping m).velocity < velNorm e.velocity) := by
  refine ⟨?_, ?_, ?_⟩
  · intro hd
    unfold Entity.applyMouseDamping
    dsimp only
    rw [if_pos hd]
  · intro hd
    unfold Entity.applyMouseDamping
    dsimp only
    rw [if_neg (by linarith)]
  · intro hd hv
    have hd0 : 0 ≤ e.position.dist m := Vec.dist_nonneg _ _
    unfold Entity.applyMouseDamping
    dsimp only
    rw [if_neg (by linarith : ¬(30 : ℝ) < e.position.dist m)]
    have hfact : clamp (0.05 * e.position.dist m + 0.0) 0 1 = 0.05 * e.position.dist m + 0.0 := by
      unfold clamp
      rw [min_eq_left (by linarith), max_eq_right (by linarith)]
    show velNorm (e.velocity.mult (clamp (0.05 * e.position.dist m + 0.0) 0 1)) < velNorm e.velocity
    rw [hfact, velNorm_mult _ _ (by linarith)]
    have hp := velNorm_pos hv
    nlinarith

/-- C3 (witness): the skip branch at distance 40 and the strict-decrease
branch at distance 10, on concrete particles. -/
theorem applyMouseDamping_spec_witness :
    (30 < (Entity.create ⟨0, 0⟩ false).position.dist ⟨40, 0⟩ ∧
      (Entity.create ⟨0, 0⟩ false).applyMouseDamping ⟨40, 0⟩ = Entity.create ⟨0, 0⟩ false) ∧
    ((Entity.mk ⟨0, 0⟩ ⟨1, 0⟩ ⟨0, 0⟩ false).position.dist ⟨10, 0⟩ < 20 ∧
      (Entity.mk ⟨0, 0⟩ ⟨1, 0⟩ ⟨0, 0⟩ false).velocity ≠ ⟨0, 0⟩ ∧
      velNorm ((Entity.mk ⟨0, 0⟩ ⟨1, 0⟩ ⟨0, 0⟩ false).applyMouseDamping ⟨10, 0⟩).velocity <
        velNorm (Entity.mk ⟨0, 0⟩ ⟨1, 0⟩ ⟨0, 0⟩ false).velocity) := by
  have h40 : (Entity.create ⟨0, 0⟩ false).position.dist ⟨40, 0⟩ = 40 := by
    show Vec.dist ⟨0, 0⟩ ⟨40, 0⟩ = 40
    exact Vec.dist_axis 40 (by norm_num)
  have h10 : (Entity.mk ⟨0, 0⟩ ⟨1, 0⟩ ⟨0, 0⟩ false).position.dist ⟨10, 0⟩ = 10 := by
    show Vec.dist ⟨0, 0⟩ ⟨10, 0⟩ = 10
    exact Vec.dist_axis 10 (by norm_num)
  have hv : (Entity.mk ⟨0, 0⟩ ⟨1, 0⟩ ⟨0, 0⟩ false).velocity ≠ (⟨0, 0⟩ : Vec) := by
    intro hcon
    have := congrArg Vec.x hcon
    norm_num at this
  exact ⟨⟨by rw [h40]; norm_num, (applyMouseDamping_spec _ _).1 (by rw [h40]; norm_num)⟩,
    by rw [h10]; norm_num, hv,
    (applyMouseDamping_spec _ _).2.2 (by rw [h10]; norm_num) hv⟩

/-! ## Elasticity branch boundary (C4) -/

lemma rpow_69_bounds :
    1.442 < (1.7 : ℝ) ^ ((69 : ℝ) / 100) ∧ (1.7 : ℝ) ^ ((69 : ℝ) / 100) < 1.4425 := by
  have h0 : (0 : ℝ) ≤ 1.7 := by norm_num
  have tpos : 0 < (1.7 : ℝ) ^ ((69 : ℝ) / 100) := Real.rpow_pos_of_pos (by norm_num) _
  have hpow : ((1.7 : ℝ) ^ ((69 : ℝ) / 100)) ^ (100 : ℕ) = (1.7 : ℝ) ^ (69 : ℕ) := by
    rw [← Real.rpow_natCast ((1.7 : ℝ) ^ ((69 : ℝ) / 100)) 100, ← Real.rpow_mul h0]
    rw [show ((69 : ℝ) / 100 * ((100 : ℕ) : ℝ) : ℝ) = ((69 : ℕ) : ℝ) by push_cast; ring]
    rw [Real.rpow_natCast]
  constructor
  · apply lt_of_pow_lt_pow_left₀ 100 (le_of_lt tpos)
    rw [hpow]
    norm_num
  · apply lt_of_pow_lt_pow_left₀ 100 (by norm_num : (0 : ℝ) ≤ 1.4425)
    rw [hpow]
    norm_num

lemma elasticExp_at_boundary :
    elasticExp 2.62 = ((1.7 : ℝ) ^ ((69 : ℝ) / 100))⁻¹ + 2 := by
  unfold elasticExp
  rw [show (0.5 * 2.62 - 2 : ℝ) = -((69 : ℝ) / 100) by norm_num]
  rw [Real.rpow_neg (by norm_num : (0 : ℝ) ≤ 1.7)]

lemma inv_rpow69_bounds :
    0.6932 < ((1.7 : ℝ) ^ ((69 : ℝ) / 100))⁻¹ ∧ ((1.7 : ℝ) ^ ((69 : ℝ) / 100))⁻¹ < 0.6935 := by
  obtain ⟨h1, h2⟩ := rpow_69_bounds
  have tpos : 0 < (1.7 : ℝ) ^ ((69 : ℝ) / 100) := by linarith
  constructor
  · have ha : ((1.4425 : ℝ))⁻¹ < ((1.7 : ℝ) ^ ((69 : ℝ) / 100))⁻¹ := inv_lt_inv_of_lt tpos h2
    have hb : (0.6932 : ℝ) < (1.4425 : ℝ)⁻¹ := by norm_num
    linarith
  · have ha : ((1.7 : ℝ) ^ ((69 : ℝ) / 100))⁻¹ < (1.442 : ℝ)⁻¹ := inv_lt_inv_of_lt (by norm_num) h1
    have hb : (1.442 : ℝ)⁻¹ < 0.6935 := by norm_num
    linarith

lemma elasticLinear_at_boundary : elasticLinear 2.62 = 2.62 := by
  unfold elasticLinear
  rw [abs_of_nonneg (by norm_num : (0 : ℝ) ≤ 2.62)]

/-- C4 (counterexample): the two elasticity magnitude branches do NOT agree
at the boundary 2.62: the exponential branch exceeds the linear one by more
than 0.07, far beyond any floating-point tolerance. -/
theorem elastic_branch_counterexample :
    elasticLinear 2.62 ≠ elasticExp 2.62 ∧ 0.07 < elasticExp 2.62 - elasticLinear 2.62 := by
  obtain ⟨hlo, hhi⟩ := inv_rpow69_bounds
  have hexp := elasticExp_at_boundary
  have hlin := elasticLinear_at_boundary
  constructor
  · intro hcon
    rw [hlin, hexp] at hcon
    linarith
  · rw [hlin, hexp]
    linarith

/-- C4 (amended): at the branch boundary 2.62 the piecewise elasticity
magnitude has an upward jump: the exponential branch exceeds the linear
branch by an amount strictly between 0.073 and 0.074 (the two laws actually
intersect near 2.71, not at 2.62). -/
theorem elastic_branch_gap :
    0.073 < elasticExp 2.62 - elasticLinear 2.62 ∧
    elasticExp 2.62 - elasticLinear 2.62 < 0.074 := by
  obtain ⟨hlo, hhi⟩ := inv_rpow69_bounds
  rw [elasticExp_at_boundary, elasticLinear_at_boundary]
  constructor <;> linarith

/-! ## Gravity (C1) -/

lemma specGravMagnitude_pos {r : ℝ} (hr : 0 < r) : 0 < specGravMagnitude r := by
  unfold specGravMagnitude
  exact div_pos (by norm_num) (Real.rpow_pos_of_pos hr _)

lemma specGravMagnitude_antitone {r₁ r₂ : ℝ} (h1 : 0 < r₁) (h12 : r₁ ≤ r₂) :
    specGravMagnitude r₂ ≤ specGravMagnitude r₁ := by
  unfold specGravMagnitude
  have hr2 : 0 < r₂ := lt_of_lt_of_le h1 h12
  have hp1 : 0 < r₁ ^ (1.05 : ℝ) := Real.rpow_pos_of_pos h1 _
  have hp2 : 0 < r₂ ^ (1.05 : ℝ) := Real.rpow_pos_of_pos hr2 _
  have hle : r₁ ^ (1.05 : ℝ) ≤ r₂ ^ (1.05 : ℝ) :=
    Real.rpow_le_rpow (le_of_lt h1) h12 (by norm_num)
  rw [div_le_div_iff hp2 hp1]
  nlinarith

/-- C1: `calculateGravity` is exactly the spec law — pre-clamp vector equal
to `G / d^1.05` (`G = 1000`) times the unit vector from `a` to `b`, with a
positive pre-clamp magnitude, each axis clamped independently to
`[-12, 12]`, and along any fixed unit direction each clamped component is
monotonically decreasing in absolute value as the distance grows. -/
theorem calculateGravity_correct (a b : Vec) (hab : a ≠ b) : gravityClaim a b := by
  have hdpos : 0 < a.dist b := Vec.dist_pos_of_ne hab
  have hEq : calculateGravity a b =
      ⟨clamp (specGravMagnitude (a.dist b) * ((b.x - a.x) / a.dist b)) (-12) 12,
       clamp (specGravMagnitude (a.dist b) * ((b.y - a.y) / a.dist b)) (-12) 12⟩ := by
    unfold calculateGravity specGravMagnitude Vec.dist settings
    norm_num
  unfold gravityClaim
  refine ⟨hEq, specGravMagnitude_pos hdpos, ?_, ?_, ?_⟩
  · rw [hEq]
    exact abs_le.mpr ⟨(clamp_mem (by norm_num)).1, (clamp_mem (by norm_num)).2⟩
  · rw [hEq]
    exact abs_le.mpr ⟨(clamp_mem (by norm_num)).1, (clamp_mem (by norm_num)).2⟩
  · intro ux uy r₁ r₂ hunit h1 h12
    have hm : specGravMagnitude r₂ ≤ specGravMagnitude r₁ := specGravMagnitude_antitone h1 h12
    have hm0 : 0 ≤ specGravMagnitude r₂ :=
      le_of_lt (specGravMagnitude_pos (lt_of_lt_of_le h1 h12))
    have hm1 : 0 ≤ specGravMagnitude r₁ := le_of_lt (specGravMagnitude_pos h1)
    constructor <;>
    · rw [abs_clamp (by norm_num : (0 : ℝ) ≤ 12), abs_clamp (by norm_num : (0 : ℝ) ≤ 12)]
      apply clamp_mono
      rw [abs_mul, abs_mul, abs_of_nonneg hm0, abs_of_nonneg hm1]
      exact mul_le_mul_of_nonneg_right hm (abs_nonneg _)

/-- C1 (witness): the gravity specification at the concrete pair
`(0, 0) ≠ (3, 0)`. -/
theorem calculateGravity_correct_witness :
    ((⟨0, 0⟩ : Vec) ≠ ⟨3, 0⟩) ∧ gravityClaim ⟨0, 0⟩ ⟨3, 0⟩ := by
  have hne : (⟨0, 0⟩ : Vec) ≠ ⟨3, 0⟩ := by
    intro hcon
    have := congrArg Vec.x hcon
    norm_num at this
  exact ⟨hne, calculateGravity_correct _ _ hne⟩

/-! ## Grid layout (C6) -/

lemma createEntities_eq :
    createEntities =
      (List.range 80).flatMap (fun (i : ℕ) =>
        (List.range 40).map (fun (j : ℕ) =>
          Entity.create ⟨(i : ℝ) * 14 - 555, (j : ℝ) * 14 - 275⟩ (i == 0 && j == 0))) := by
  unfold createEntities settings
  norm_num

lemma list_range_map_sum_linear (n : ℕ) (c d : ℝ) :
    ((List.range n).map (fun (i : ℕ) => c * (i : ℝ) + d)).sum =
      c * ((n : ℝ) * ((n : ℝ) - 1) / 2) + (n : ℝ) * d := by
  induction n with
  | zero => simp
  | succ k ih =>
      rw [List.range_succ, List.map_append, List.sum_append, ih]
      simp only [List.map_cons, List.map_nil, List.sum_cons, List.sum_nil]
      push_cast
      ring

lemma list_range_map_sum_linear' (n : ℕ) (f : ℕ → ℝ) (c d : ℝ) (hf : ∀ i, f i = c * (i : ℝ) + d) :
    ((List.range n).map f).sum = c * ((n : ℝ) * ((n : ℝ) - 1) / 2) + (n : ℝ) * d := by
  rw [show f = fun (i : ℕ) => c * (i : ℝ) + d from funext hf]
  exact list_range_map_sum_linear n c d

lemma list_range_map_sum_const (n : ℕ) (a : ℝ) :
    ((List.range n).map (fun _ => a)).sum = (n : ℝ) * a := by
  induction n with
  | zero => simp
  | succ k ih =>
      rw [List.range_succ, List.map_append, List.sum_append, ih]
      simp only [List.map_cons, List.map_nil, List.sum_cons, List.sum_nil]
      push_cast
      ring

lemma sum_map_flatMap {α β : Type} (l : List α) (f : α → List β) (g : β → ℝ) :
    ((l.flatMap f).map g).sum = (l.map (fun i => ((f i).map g).sum)).sum := by
  induction l with
  | nil => rfl
  | cons a t ih => simp [List.flatMap_cons, ih]

lemma createEntities_anchor_x_sum :
    (createEntities.map (fun e => e.anchor.x)).sum = -6400 := by
  rw [createEntities_eq, sum_map_flatMap]
  simp only [List.map_map, Function.comp_def, Entity.create]
  simp only [list_range_map_sum_const]
  rw [list_range_map_sum_linear' 80 _ 560 (-22200) (fun i => by push_cast; ring)]
  norm_num

lemma createEntities_inner_y_sum :
    ((List.range 40).map (fun (j : ℕ) => (j : ℝ) * 14 - 275)).sum = -80 := by
  rw [list_range_map_sum_linear' 40 _ 14 (-275) (fun j => by ring)]
  norm_num

lemma createEntities_anchor_y_sum :
    (createEntities.map (fun e => e.anchor.y)).sum = -6400 := by
  rw [createEntities_eq, sum_map_flatMap]
  simp only [List.map_map, Function.comp_def, Entity.create]
  simp only [createEntities_inner_y_sum]
  rw [list_range_map_sum_const]
  norm_num

lemma createEntities_length : createEntities.length = 3200 := by
  rw [createEntities_eq]
  simp only [List.length_flatMap, List.map_map, Function.comp_def, List.length_map,
    List.length_range]
  decide

/-- C6 (counterexample): the anchor x-coordinates of a grid rebuild sum to
exactly -6400 (an average offset of -2 per particle), not approximately 0:
the layout is not symmetric about the origin. -/
theorem grid_sum_counterexample :
    (createEntities.map (fun e => e.anchor.x)).sum = -6400 ∧
    ¬|(createEntities.map (fun e => e.anchor.x)).sum| ≤ 1 := by
  refine ⟨createEntities_anchor_x_sum, ?_⟩
  rw [createEntities_anchor_x_sum, abs_of_nonpos (by norm_num : (-6400 : ℝ) ≤ 0)]
  norm_num

/-- C6 (amended): a grid rebuild produces exactly `columns * rows = 3200`
particles, and the anchor layout is centered on `(-2, -2)` rather than the
origin: both coordinate sums equal `3200 * (-2) = -6400`. -/
theorem grid_layout_spec :
    createEntities.length = settings.columns * settings.rows ∧
    createEntities.length = 3200 ∧
    (createEntities.map (fun e => e.anchor.x)).sum = -6400 ∧
    (createEntities.map (fun e => e.anchor.y)).sum = -6400 :=
  ⟨createEntities_length, createEntities_length,
    createEntities_anchor_x_sum, createEntities_anchor_y_sum⟩
